import Mathlib

/-!
# Pangolin X11 display device (`src/display/device/display_x11.cpp`)

A shallow embedding of the X11/GLX windowing shim of Pangolin.  Native calls
are not executed: their results are supplied by an explicit record of replies,
and every call, diagnostic line and store to shared state that the program
performs is appended to a log carried by the program state.
-/

set_option autoImplicit false

namespace Pangolin

/-! ## Data model -/

/-- The fields of `XVisualInfo` that the program reads. -/
structure XVisualInfo where
  visualid : Int
  screen : Int
  depth : Int
deriving DecidableEq, Repr

/-- One entry of the array returned by `glXChooseFBConfig`: the visual that
`glXGetVisualFromFBConfig` yields for it, at line 153 and again at line 178
(`none` is `NULL`), and the two attributes read by `glXGetFBConfigAttrib`. -/
structure FBConfig where
  vi : Option XVisualInfo
  samp_buf : Int
  samples : Int
deriving DecidableEq, Repr

/-- Attributes queried with `glXGetFBConfigAttrib`. -/
inductive Attrib
  | GLX_SAMPLE_BUFFERS
  | GLX_SAMPLES
deriving DecidableEq, Repr

/-- Error handlers that `XSetErrorHandler` is called with. -/
inductive Handler
  | ctxErrorHandler
  | oldHandler
deriving DecidableEq, Repr

/-- Everything the program does that is visible outside its own locals, in
program order. -/
inductive Effect
  | XOpenDisplay
  | glXQueryVersion
  | glXChooseFBConfig
  | glXGetVisualFromFBConfig (idx : Int)
  | glXGetFBConfigAttrib (idx : Int) (attr : Attrib)
  | XFreeVisual
  | XFreeFbc
  | XCreateColormap
  | XCreateWindow (width height : Int)
  | XStoreName
  | XMapWindow
  | XSelectInput
  | glXQueryExtensionsString
  | glXGetProcAddressARB
  | XSetErrorHandler (h : Handler)
  | glXCreateNewContext
  | glXCreateContextAttribsARB (major minor : Int)
  | XSync
  | glXIsDirect
  | glXMakeCurrent (win ctx : Nat)
  | glXDestroyContext (ctx : Nat)
  | XDestroyWindow (win : Nat)
  | XFreeColormap (cmap : Nat)
  | XCloseDisplay (display : Nat)
  | XCheckWindowEvent (display win : Nat)
  | printf (fmt : String) (args : List Int)
  | fflush
  | Quit
  | StartFullScreen
  | StopFullScreen
  | storeWindowedSize (idx : Nat) (val : Int)
  | storeIsFullscreen (val : Bool)
deriving DecidableEq, Repr

/-- The fields of `pangolin::context` (a `PangolinGl`) used by this file. -/
structure PangolinGl where
  windowed_size : Int × Int
  is_fullscreen : Bool
  quit : Bool
deriving DecidableEq, Repr

/-- The file's global variables, the thread's `pangolin::context`, and the log
of effects performed so far. -/
structure World where
  display : Nat
  win : Nat
  ctx : Nat
  cmap : Nat
  ctxErrorOccurred : Bool
  context : PangolinGl
  log : List Effect
deriving DecidableEq, Repr

/-- Append one effect to the log. -/
def World.emit (w : World) (e : Effect) : World :=
  { w with log := w.log ++ [e] }

/-! ## Framebuffer-configuration selection (lines 146-172) -/

/-- The locals of the selection loop. -/
structure FbcLocals where
  best_fbc : Int
  worst_fbc : Int
  best_num_samp : Int
  worst_num_samp : Int
deriving DecidableEq, Repr

/-- Line 148: `best_fbc = -1, worst_fbc = -1, best_num_samp = -1, worst_num_samp = 999`. -/
def FbcLocals.init : FbcLocals :=
  ⟨-1, -1, -1, 999⟩

/-- Lines 164-167, the two conditional updates for a configuration that has a
visual. -/
def fbcUpdate (i : Int) (samp_buf samples : Int) (l : FbcLocals) : FbcLocals :=
  let l1 : FbcLocals :=
    if l.best_fbc < 0 ∨ (samp_buf ≠ 0 ∧ samples > l.best_num_samp) then
      { l with best_fbc := i, best_num_samp := samples }
    else l
  if l1.worst_fbc < 0 ∨ samp_buf = 0 ∨ samples < l1.worst_num_samp then
    { l1 with worst_fbc := i, worst_num_samp := samples }
  else l1

/-- Lines 151-170: the loop `for (i=0; i<fbcount; ++i)`, started at index `i`
on the remaining configurations. -/
def fbcLoop : List FBConfig → Int → FbcLocals × List Effect → FbcLocals × List Effect
  | [], _, st => st
  | c :: cs, i, (l, log) =>
    let log1 := log ++ [Effect.glXGetVisualFromFBConfig i]
    match c.vi with
    | some v =>
      let log2 := log1 ++
        [Effect.glXGetFBConfigAttrib i Attrib.GLX_SAMPLE_BUFFERS,
         Effect.glXGetFBConfigAttrib i Attrib.GLX_SAMPLES,
         Effect.printf
           "  Matching fbconfig %d, visual ID 0x%2x: SAMPLE_BUFFERS = %d, SAMPLES = %d\n"
           [i, v.visualid, c.samp_buf, c.samples]]
      fbcLoop cs (i + 1) (fbcUpdate i c.samp_buf c.samples l, log2 ++ [Effect.XFreeVisual])
    | none => fbcLoop cs (i + 1) (l, log1 ++ [Effect.XFreeVisual])

/-- The value of `best_fbc` at line 172 for the array `fbc`. -/
def bestFbcIndex (fbc : List FBConfig) : Int :=
  (fbcLoop fbc 0 (FbcLocals.init, [])).1.best_fbc

/-! ## Extension-string test (lines 57-88)

C strings are lists of characters without the terminating NUL; a pointer into a
string is an offset from its first character. -/

/-- The character `*(s + p)`; the offset `s.length` holds the terminating NUL. -/
def cstrAt (s : List Char) (p : Nat) : Char :=
  s.getD p '\x00'

/-- The C library `strchr`: offset of the first occurrence of `c`, `none` for
`NULL`. -/
def strchr : List Char → Char → Option Nat
  | [], c => if c = '\x00' then some 0 else none
  | x :: xs, c => if x = c then some 0 else (strchr xs c).map (· + 1)

/-- The C library `strstr`: offset of the first occurrence of `needle` in the
string, `none` for `NULL`. -/
def strstr : List Char → List Char → Option Nat
  | [], needle => if needle.isEmpty then some 0 else none
  | x :: xs, needle =>
    if needle.isPrefixOf (x :: xs) then some 0 else (strstr xs needle).map (· + 1)

/-- Lines 72-85: the loop `for (start=extList;;)`, entered with `start` at the
given offset.  The first argument bounds the number of iterations; `none` means
the bound was reached. -/
def isExtensionSupportedLoop (extList extension : List Char) : Nat → Nat → Option Bool
  | 0, _ => none
  | fuel + 1, start =>
    match strstr (extList.drop start) extension with
    | none => some false
    | some rel =>
      let wh := start + rel
      let terminator := wh + extension.length
      if (wh = start ∨ cstrAt extList (wh - 1) = ' ') ∧
          (cstrAt extList terminator = ' ' ∨ cstrAt extList terminator = '\x00') then
        some true
      else
        isExtensionSupportedLoop extList extension fuel terminator

/-- Lines 59-88.  `extList.length + 1` iterations always suffice
(`isExtensionSupported_loop_eq`). -/
def isExtensionSupported (extList extension : List Char) : Bool :=
  if (strchr extension ' ').isSome ∨ cstrAt extension 0 = '\x00' then false
  else (isExtensionSupportedLoop extList extension (extList.length + 1) 0).getD false

/-! ## Window and context creation (lines 90-309) -/

/-- Lines 91-95. -/
def ctxErrorHandler (w : World) : World :=
  { w with ctxErrorOccurred := true }

/-- Reply to a context-creation request: the handle returned (`0` is `NULL`)
and whether an X error reaches the installed handler by the end of the `XSync`
that follows the request. -/
structure CtxReply where
  ctx : Nat
  error : Bool
deriving DecidableEq, Repr

/-- The replies of the native calls made by `CreateX11Window`. -/
structure Native where
  XOpenDisplay : Nat
  glXQueryVersion : Bool
  glx_major : Int
  glx_minor : Int
  glXChooseFBConfig : Option (List FBConfig)
  XCreateColormap : Nat
  XCreateWindow : Nat
  glXQueryExtensionsString : Option (List Char)
  glXGetProcAddressARB : Bool
  glXCreateNewContext : CtxReply
  glXCreateContextAttribsARB : Int → Int → CtxReply
  glXIsDirect : Bool

/-- How a call ends: it returns a value, the process exits through `exit`, or
the call reads outside an array or through a null pointer. -/
inductive Outcome (α : Type)
  | done (a : α) (w : World)
  | exited (status : Int) (w : World)
  | undefined (w : World)

/-- `XSync(display, False)` while `ctxErrorHandler` is installed: an error
pending for the requests sent so far is delivered to the handler. -/
def XSync (pending : Bool) (w : World) : World :=
  if pending then ctxErrorHandler (w.emit Effect.XSync) else w.emit Effect.XSync

/-- The extension name passed to `isExtensionSupported` at line 236. -/
def createContextExtension : List Char :=
  "GLX_ARB_create_context".toList

/-- Lines 222-293: context creation with the temporary error handler. -/
def createContext (n : Native) (w0 : World) : Outcome Unit :=
  let w1 : World := { w0 with ctx := 0 }
  let w2 : World :=
    World.emit { w1 with ctxErrorOccurred := false } (Effect.XSetErrorHandler Handler.ctxErrorHandler)
  match n.glXQueryExtensionsString with
  | none => Outcome.undefined w2
  | some glxExts =>
    let r : World × Bool :=
      if isExtensionSupported glxExts createContextExtension = false ∨
          n.glXGetProcAddressARB = false then
        let a := w2.emit
          (Effect.printf "glXCreateContextAttribsARB() not found ... using old-style GLX context\n" [])
        let b := a.emit Effect.glXCreateNewContext
        ({ b with ctx := n.glXCreateNewContext.ctx }, n.glXCreateNewContext.error)
      else
        let a := w2.emit (Effect.printf "Creating context\n" [])
        let b := a.emit (Effect.glXCreateContextAttribsARB 3 0)
        let c : World := { b with ctx := (n.glXCreateContextAttribsARB 3 0).ctx }
        let d := XSync (n.glXCreateContextAttribsARB 3 0).error c
        if d.ctxErrorOccurred = false ∧ d.ctx ≠ 0 then
          (d.emit (Effect.printf "Created GL 3.0 context\n" []), false)
        else
          let e : World := { d with ctxErrorOccurred := false }
          let f := e.emit
            (Effect.printf "Failed to create GL 3.0 context ... using old-style GLX context\n" [])
          let g := f.emit (Effect.glXCreateContextAttribsARB 1 0)
          ({ g with ctx := (n.glXCreateContextAttribsARB 1 0).ctx },
            (n.glXCreateContextAttribsARB 1 0).error)
    let w3 := XSync r.2 r.1
    let w4 := w3.emit (Effect.XSetErrorHandler Handler.oldHandler)
    if w4.ctxErrorOccurred = true ∨ w4.ctx = 0 then
      Outcome.exited 1 (w4.emit (Effect.printf "Failed to create an OpenGL context\n" []))
    else
      Outcome.done () w4

/-- Lines 97-309. -/
def CreateX11Window (n : Native) (width height : Int) (w0 : World) : Outcome Int :=
  let w1 : World := { w0.emit Effect.XOpenDisplay with display := n.XOpenDisplay }
  if w1.display = 0 then
    Outcome.exited 1 (w1.emit (Effect.printf "Failed to open X display\n" []))
  else
    let w2 := w1.emit Effect.glXQueryVersion
    if n.glXQueryVersion = false ∨ (n.glx_major = 1 ∧ n.glx_minor < 3) ∨ n.glx_major < 1 then
      Outcome.exited 1 (w2.emit (Effect.printf "Invalid GLX version" []))
    else
      let w3 := (w2.emit (Effect.printf "Getting matching framebuffer configs\n" [])).emit
        Effect.glXChooseFBConfig
      match n.glXChooseFBConfig with
      | none =>
        Outcome.exited 1 (w3.emit (Effect.printf "Failed to retrieve a framebuffer config\n" []))
      | some fbc =>
        let w4 := (w3.emit (Effect.printf "Found %d matching FB configs.\n" [fbc.length])).emit
          (Effect.printf "Getting XVisualInfos\n" [])
        let sel := fbcLoop fbc 0 (FbcLocals.init, w4.log)
        let w5 : World := { w4 with log := sel.2 }
        if sel.1.best_fbc < 0 then Outcome.undefined w5
        else
          match fbc[sel.1.best_fbc.toNat]? with
          | none => Outcome.undefined w5
          | some bestFbc =>
            let w6 := (w5.emit Effect.XFreeFbc).emit (Effect.glXGetVisualFromFBConfig sel.1.best_fbc)
            match bestFbc.vi with
            | none => Outcome.undefined w6
            | some vi =>
              let w7 := ((w6.emit (Effect.printf "Chosen visual ID = 0x%x\n" [vi.visualid])).emit
                (Effect.printf "Creating colormap\n" [])).emit Effect.XCreateColormap
              let w8 : World := { w7 with cmap := n.XCreateColormap }
              let w9 := (w8.emit (Effect.printf "Creating window\n" [])).emit
                (Effect.XCreateWindow width height)
              let w10 : World := { w9 with win := n.XCreateWindow }
              if w10.win = 0 then
                Outcome.exited 1 (w10.emit (Effect.printf "Failed to create window.\n" []))
              else
                let w11 := ((((((w10.emit Effect.XFreeVisual).emit Effect.XStoreName).emit
                  (Effect.printf "Mapping window\n" [])).emit Effect.XMapWindow).emit
                  Effect.XSelectInput).emit Effect.glXQueryExtensionsString).emit
                  Effect.glXGetProcAddressARB
                match createContext n w11 with
                | Outcome.exited status w => Outcome.exited status w
                | Outcome.undefined w => Outcome.undefined w
                | Outcome.done _ w12 =>
                  let w13 := w12.emit Effect.glXIsDirect
                  let w14 := w13.emit
                    (if n.glXIsDirect = false then
                      Effect.printf "Indirect GLX rendering context obtained\n" []
                    else Effect.printf "Direct GLX rendering context obtained\n" [])
                  let w15 := (w14.emit (Effect.printf "Making context current\n" [])).emit
                    (Effect.glXMakeCurrent w14.win w14.ctx)
                  Outcome.done 0 w15

/-! ## Teardown, event pump and fullscreen toggle (lines 315-387) -/

/-- Lines 316-324. -/
def Terminate (w : World) : World :=
  ((((w.emit (Effect.glXMakeCurrent 0 0)).emit (Effect.glXDestroyContext w.ctx)).emit
    (Effect.XDestroyWindow w.win)).emit (Effect.XFreeColormap w.cmap)).emit
    (Effect.XCloseDisplay w.display)

/-- Modelled from the spec: `pangolin::Quit` is defined outside this file; it
"signals the hosting application to quit" and returns to its caller. -/
def Quit (w : World) : World :=
  { w.emit Effect.Quit with context := { w.context with quit := true } }

/-- The events that `XCheckWindowEvent` can deliver for `EVENT_MASKS`, by
`ev.type`; `ConfigureNotify` carries `ev.xconfigure.width` and `.height`. -/
inductive XEvent
  | ConfigureNotify (width height : Int)
  | ButtonPress
  | other (type : Int)
deriving DecidableEq, Repr

/-- Lines 331-343: the `switch` on the type of a delivered event. -/
def handleEvent (ev : XEvent) (w : World) : World :=
  match ev with
  | XEvent.ConfigureNotify width height =>
    if w.context.windowed_size.1 ≠ width ∨ w.context.windowed_size.2 ≠ height then
      let a : World :=
        { w.emit (Effect.storeWindowedSize 0 width) with
          context := { w.context with windowed_size := (width, w.context.windowed_size.2) } }
      let b : World :=
        { a.emit (Effect.storeWindowedSize 1 height) with
          context := { a.context with windowed_size := (a.context.windowed_size.1, height) } }
      b.emit (Effect.printf "Size changed to: %d by %d\n"
        [b.context.windowed_size.1, b.context.windowed_size.2])
    else w
  | XEvent.ButtonPress => Quit (Terminate w)
  | XEvent.other _ => w

/-- Lines 326-346.  The argument is the sequence of events that successive
calls of `XCheckWindowEvent` deliver before one returns `False`. -/
def ProcessX11Events : List XEvent → World → World
  | [], w => (w.emit (Effect.XCheckWindowEvent w.display w.win)).emit Effect.fflush
  | ev :: pending, w =>
    ProcessX11Events pending (handleEvent ev (w.emit (Effect.XCheckWindowEvent w.display w.win)))

/-- Lines 370-371. -/
def StartFullScreen (w : World) : World :=
  w.emit Effect.StartFullScreen

/-- Lines 373-374. -/
def StopFullScreen (w : World) : World :=
  w.emit Effect.StopFullScreen

/-- Lines 376-387. -/
def SetFullscreen (fullscreen : Bool) (w : World) : World :=
  if fullscreen ≠ w.context.is_fullscreen then
    let a := if fullscreen = true then StartFullScreen w else StopFullScreen w
    { a.emit (Effect.storeIsFullscreen fullscreen) with
      context := { a.context with is_fullscreen := fullscreen } }
  else w

/-! ## Definitions used to state the properties -/

/-- The locals computed by `fbcLoop`, without the log. -/
def fbcLocals : List FBConfig → Int → FbcLocals → FbcLocals
  | [], _, l => l
  | c :: cs, i, l =>
    match c.vi with
    | some _ => fbcLocals cs (i + 1) (fbcUpdate i c.samp_buf c.samples l)
    | none => fbcLocals cs (i + 1) l

/-- A configuration that yields a visual and has `GLX_SAMPLE_BUFFERS` non-zero:
the test `vi` of line 154 and the test `samp_buf` of line 164. -/
def FBConfig.multisampled (c : FBConfig) : Prop :=
  c.vi.isSome = true ∧ c.samp_buf ≠ 0

instance (c : FBConfig) : Decidable c.multisampled := by
  unfold FBConfig.multisampled
  infer_instance

/-- Index of the first configuration of the array that yields a visual. -/
def firstVisualIdx : List FBConfig → Option Nat
  | [] => none
  | c :: cs => if c.vi.isSome = true then some 0 else (firstVisualIdx cs).map (· + 1)

/-- The first configuration of the array that yields a visual. -/
def firstVisual : List FBConfig → Option FBConfig
  | [] => none
  | c :: cs => if c.vi.isSome = true then some c else firstVisual cs

/-- The state in which a call ends. -/
def Outcome.world {α : Type} : Outcome α → World
  | Outcome.done _ w => w
  | Outcome.exited _ w => w
  | Outcome.undefined w => w

/-- A context-creation request is rejected when it returns `NULL` or the
server reports an error for it. -/
def CtxReply.rejected (r : CtxReply) : Prop :=
  r.ctx = 0 ∨ r.error = true

instance (r : CtxReply) : Decidable r.rejected := by
  unfold CtxReply.rejected
  infer_instance

/-- The reply to the last context request that lines 236-281 issue when the
extension string is `glxExts`: `glXCreateNewContext` without the extension or
its entry point, otherwise the version 3.0 request or, when that one is
rejected, the version 1.0 request. -/
def Native.lastContextReply (n : Native) (glxExts : List Char) : CtxReply :=
  if isExtensionSupported glxExts createContextExtension = false ∨
      n.glXGetProcAddressARB = false then
    n.glXCreateNewContext
  else if (n.glXCreateContextAttribsARB 3 0).rejected then n.glXCreateContextAttribsARB 1 0
  else n.glXCreateContextAttribsARB 3 0

/-- The space-separated names of an extension string. -/
def extensionNames : List Char → List (List Char)
  | [] => [[]]
  | c :: cs =>
    if c = ' ' then [] :: extensionNames cs
    else
      match extensionNames cs with
      | [] => [[c]]
      | name :: names => (c :: name) :: names

/-- Replies of a server that offers `GLX_ARB_create_context`, rejects the
version 3.0 request with an X error and accepts the version 1.0 request. -/
def Native.fallbackServer : Native :=
  { XOpenDisplay := 1
    glXQueryVersion := true
    glx_major := 1
    glx_minor := 4
    glXChooseFBConfig := some [FBConfig.mk (some ⟨33, 0, 24⟩) 0 0, FBConfig.mk (some ⟨34, 0, 24⟩) 1 4]
    XCreateColormap := 5
    XCreateWindow := 6
    glXQueryExtensionsString := some "GLX_ARB_multisample GLX_ARB_create_context".toList
    glXGetProcAddressARB := true
    glXCreateNewContext := ⟨0, true⟩
    glXCreateContextAttribsARB := fun major _ => if major = 3 then ⟨0, true⟩ else ⟨7, false⟩
    glXIsDirect := true }

/-- Replies of a server whose `glXChooseFBConfig` returns an array of length 0
and whose `XCreateWindow` would fail. -/
def Native.emptyArrayServer : Native :=
  { Native.fallbackServer with glXChooseFBConfig := some [], XCreateWindow := 0 }

/-- Replies of a server whose only configuration yields no visual and whose
`XCreateWindow` would fail. -/
def Native.noVisualServer : Native :=
  { Native.fallbackServer with
    glXChooseFBConfig := some [FBConfig.mk none 1 4], XCreateWindow := 0 }

/-- The globals before `CreateX11Window` runs (lines 47-50, 90). -/
def World.start : World :=
  { display := 0
    win := 0
    ctx := 0
    cmap := 0
    ctxErrorOccurred := false
    context := ⟨(640, 480), false, false⟩
    log := [] }

/-! # Properties -/

/-! ### Lemmas on the selection loop -/

theorem fbcLoop_fst (cs : List FBConfig) (i : Int) (l : FbcLocals) (log : List Effect) :
    (fbcLoop cs i (l, log)).1 = fbcLocals cs i l := by
  induction cs generalizing i l log with
  | nil => rfl
  | cons c cs ih =>
    cases hv : c.vi with
    | none => simp [fbcLoop, fbcLocals, hv, ih]
    | some v => simp [fbcLoop, fbcLocals, hv, ih]

theorem bestFbcIndex_eq (fbc : List FBConfig) :
    bestFbcIndex fbc = (fbcLocals fbc 0 FbcLocals.init).best_fbc := by
  simp [bestFbcIndex, fbcLoop_fst]

theorem fbcUpdate_best_fbc (i sb s : Int) (l : FbcLocals) :
    (fbcUpdate i sb s l).best_fbc =
      if l.best_fbc < 0 ∨ (sb ≠ 0 ∧ s > l.best_num_samp) then i else l.best_fbc := by
  unfold fbcUpdate
  dsimp only
  split_ifs <;> rfl

theorem fbcUpdate_best_num_samp (i sb s : Int) (l : FbcLocals) :
    (fbcUpdate i sb s l).best_num_samp =
      if l.best_fbc < 0 ∨ (sb ≠ 0 ∧ s > l.best_num_samp) then s else l.best_num_samp := by
  unfold fbcUpdate
  dsimp only
  split_ifs <;> rfl

theorem fbcLocals_skip (pre rest : List FBConfig) (i : Int) (l : FbcLocals)
    (hpre : ∀ c ∈ pre, c.vi = none) :
    fbcLocals (pre ++ rest) i l = fbcLocals rest (i + pre.length) l := by
  induction pre generalizing i with
  | nil => simp
  | cons c pre ih =>
    have hc : c.vi = none := hpre c (List.mem_cons_self _ _)
    have := ih (i + 1) (fun d hd => hpre d (List.mem_cons_of_mem _ hd))
    rw [List.cons_append]
    simp only [fbcLocals, hc]
    rw [this]
    congr 1
    simp only [List.length_cons]
    push_cast
    ring

theorem firstVisualIdx_eq_none (cs : List FBConfig) :
    firstVisualIdx cs = none ↔ ∀ c ∈ cs, c.vi = none := by
  induction cs with
  | nil => simp [firstVisualIdx]
  | cons c cs ih =>
    cases hv : c.vi with
    | none => simp [firstVisualIdx, hv, ih]
    | some v => simp [firstVisualIdx, hv]

theorem firstVisualIdx_eq_some (cs : List FBConfig) (k : Nat) (h : firstVisualIdx cs = some k) :
    ∃ pre c0 rest, cs = pre ++ c0 :: rest ∧ pre.length = k ∧ (∀ c ∈ pre, c.vi = none) ∧
      c0.vi.isSome = true := by
  induction cs generalizing k with
  | nil => simp [firstVisualIdx] at h
  | cons c cs ih =>
    cases hv : c.vi with
    | some v =>
      simp [firstVisualIdx, hv] at h
      exact ⟨[], c, cs, rfl, by simpa using h, by simp, by simp [hv]⟩
    | none =>
      simp [firstVisualIdx, hv] at h
      obtain ⟨k', hk', rfl⟩ := h
      obtain ⟨pre, c0, rest, rfl, hlen, hpre, h0⟩ := ih k' hk'
      refine ⟨c :: pre, c0, rest, rfl, by simp [hlen], ?_, h0⟩
      intro d hd
      rcases List.mem_cons.mp hd with rfl | hd
      · exact hv
      · exact hpre d hd

/-- Once `best_fbc` is set, the rest of the loop either keeps it, and then no
later multisampled configuration has more samples than `best_num_samp`, or
moves it to the first later multisampled configuration that attains the
largest sample count, which exceeds `best_num_samp`. -/
theorem fbcLocals_best_of_nonneg (cs : List FBConfig) (i : Int) (l : FbcLocals)
    (hb : 0 ≤ l.best_fbc) (hi : 0 ≤ i) :
    ((fbcLocals cs i l).best_fbc = l.best_fbc ∧
      (fbcLocals cs i l).best_num_samp = l.best_num_samp ∧
      ∀ c ∈ cs, c.multisampled → c.samples ≤ l.best_num_samp) ∨
    ∃ (k : Nat) (c : FBConfig), cs[k]? = some c ∧
      (fbcLocals cs i l).best_fbc = i + k ∧
      (fbcLocals cs i l).best_num_samp = c.samples ∧
      c.multisampled ∧ l.best_num_samp < c.samples ∧
      (∀ d ∈ cs, d.multisampled → d.samples ≤ c.samples) ∧
      (∀ (j : Nat) (d : FBConfig), j < k → cs[j]? = some d → d.multisampled →
        d.samples < c.samples) := by
  induction cs generalizing i l with
  | nil => left; simp [fbcLocals]
  | cons a cs ih =>
    cases hv : a.vi with
    | none =>
      have hnm : ¬ a.multisampled := by simp [FBConfig.multisampled, hv]
      simp only [fbcLocals, hv]
      rcases ih (i + 1) l hb (by omega) with ⟨h1, h2, h3⟩ | ⟨k, c, hk, h1, h2, hm, hlt, hmax, hfirst⟩
      · left
        refine ⟨h1, h2, ?_⟩
        intro d hd hdm
        rcases List.mem_cons.mp hd with rfl | hd
        · exact absurd hdm hnm
        · exact h3 d hd hdm
      · right
        refine ⟨k + 1, c, by simpa using hk, by rw [h1]; push_cast; ring, h2, hm, hlt, ?_, ?_⟩
        · intro d hd hdm
          rcases List.mem_cons.mp hd with rfl | hd
          · exact absurd hdm hnm
          · exact hmax d hd hdm
        · intro j d hj hjd hdm
          cases j with
          | zero =>
            simp at hjd
            subst hjd
            exact absurd hdm hnm
          | succ j => exact hfirst j d (by omega) (by simpa using hjd) hdm
    | some v =>
      simp only [fbcLocals, hv]
      have hbf := fbcUpdate_best_fbc i a.samp_buf a.samples l
      have hbn := fbcUpdate_best_num_samp i a.samp_buf a.samples l
      by_cases hc : a.samp_buf ≠ 0 ∧ a.samples > l.best_num_samp
      · have hcond : l.best_fbc < 0 ∨ (a.samp_buf ≠ 0 ∧ a.samples > l.best_num_samp) := Or.inr hc
        rw [if_pos hcond] at hbf hbn
        have ham : a.multisampled := ⟨by simp [hv], hc.1⟩
        rcases ih (i + 1) (fbcUpdate i a.samp_buf a.samples l) (by rw [hbf]; exact hi) (by omega)
          with ⟨h1, h2, h3⟩ | ⟨k, c, hk, h1, h2, hm, hlt, hmax, hfirst⟩
        · right
          refine ⟨0, a, by simp, by rw [h1, hbf]; simp, by rw [h2, hbn], ham, hc.2, ?_, ?_⟩
          · intro d hd hdm
            rcases List.mem_cons.mp hd with rfl | hd
            · exact le_refl _
            · have := h3 d hd hdm
              rw [hbn] at this
              exact this
          · intro j d hj
            omega
        · rw [hbn] at hlt
          right
          refine ⟨k + 1, c, by simpa using hk, by rw [h1]; push_cast; ring, h2, hm, ?_, ?_, ?_⟩
          · have := hc.2
            omega
          · intro d hd hdm
            rcases List.mem_cons.mp hd with rfl | hd
            · omega
            · exact hmax d hd hdm
          · intro j d hj hjd hdm
            cases j with
            | zero =>
              simp at hjd
              subst hjd
              exact hlt
            | succ j => exact hfirst j d (by omega) (by simpa using hjd) hdm
      · have hcond : ¬ (l.best_fbc < 0 ∨ (a.samp_buf ≠ 0 ∧ a.samples > l.best_num_samp)) := by
          intro h
          rcases h with h | h
          · omega
          · exact hc h
        rw [if_neg hcond] at hbf hbn
        have hale : a.multisampled → a.samples ≤ l.best_num_samp := by
          intro ham
          by_contra hgt
          exact hc ⟨ham.2, by omega⟩
        rcases ih (i + 1) (fbcUpdate i a.samp_buf a.samples l) (by rw [hbf]; exact hb) (by omega)
          with ⟨h1, h2, h3⟩ | ⟨k, c, hk, h1, h2, hm, hlt, hmax, hfirst⟩
        · left
          refine ⟨by rw [h1, hbf], by rw [h2, hbn], ?_⟩
          intro d hd hdm
          rcases List.mem_cons.mp hd with rfl | hd
          · exact hale hdm
          · have := h3 d hd hdm
            rw [hbn] at this
            exact this
        · rw [hbn] at hlt
          right
          refine ⟨k + 1, c, by simpa using hk, by rw [h1]; push_cast; ring, h2, hm, hlt, ?_, ?_⟩
          · intro d hd hdm
            rcases List.mem_cons.mp hd with rfl | hd
            · have := hale hdm
              omega
            · exact hmax d hd hdm
          · intro j d hj hjd hdm
            cases j with
            | zero =>
              simp at hjd
              subst hjd
              have := hale hdm
              omega
            | succ j => exact hfirst j d (by omega) (by simpa using hjd) hdm

theorem firstVisual_eq_some (cs : List FBConfig) (c0 : FBConfig) (h : firstVisual cs = some c0) :
    ∃ pre rest, cs = pre ++ c0 :: rest ∧ (∀ c ∈ pre, c.vi = none) ∧ c0.vi.isSome = true := by
  induction cs with
  | nil => simp [firstVisual] at h
  | cons c cs ih =>
    cases hv : c.vi with
    | some v =>
      simp [firstVisual, hv] at h
      subst h
      exact ⟨[], cs, rfl, by simp, by simp [hv]⟩
    | none =>
      simp [firstVisual, hv] at h
      obtain ⟨pre, rest, rfl, hpre, h0⟩ := ih h
      refine ⟨c :: pre, rest, rfl, ?_, h0⟩
      intro d hd
      rcases List.mem_cons.mp hd with rfl | hd
      · exact hv
      · exact hpre d hd

theorem firstVisual_eq_none (cs : List FBConfig) :
    firstVisual cs = none ↔ ∀ c ∈ cs, c.vi = none := by
  induction cs with
  | nil => simp [firstVisual]
  | cons c cs ih =>
    cases hv : c.vi with
    | none => simp [firstVisual, hv, ih]
    | some v => simp [firstVisual, hv]

/-- The value of `best_fbc` after the loop, for an array whose first
configuration with a visual is `c0`. -/
theorem bestFbcIndex_split (pre rest : List FBConfig) (c0 : FBConfig)
    (hpre : ∀ c ∈ pre, c.vi = none) (h0 : c0.vi.isSome = true) :
    (bestFbcIndex (pre ++ c0 :: rest) = pre.length ∧
      ∀ c ∈ rest, c.multisampled → c.samples ≤ c0.samples) ∨
    ∃ (k : Nat) (c : FBConfig), rest[k]? = some c ∧
      bestFbcIndex (pre ++ c0 :: rest) = ((pre.length + 1 + k : Nat) : Int) ∧
      c.multisampled ∧ c0.samples < c.samples ∧
      (∀ d ∈ rest, d.multisampled → d.samples ≤ c.samples) ∧
      (∀ (j : Nat) (d : FBConfig), j < k → rest[j]? = some d → d.multisampled →
        d.samples < c.samples) := by
  obtain ⟨v, hv⟩ := Option.isSome_iff_exists.mp h0
  have hbf := fbcUpdate_best_fbc (0 + pre.length) c0.samp_buf c0.samples FbcLocals.init
  have hbn := fbcUpdate_best_num_samp (0 + pre.length) c0.samp_buf c0.samples FbcLocals.init
  have hinit : FbcLocals.init.best_fbc < 0 ∨
      (c0.samp_buf ≠ 0 ∧ c0.samples > FbcLocals.init.best_num_samp) := by
    left
    simp [FbcLocals.init]
  rw [if_pos hinit] at hbf hbn
  have hrun : bestFbcIndex (pre ++ c0 :: rest) =
      (fbcLocals rest (0 + pre.length + 1)
        (fbcUpdate (0 + pre.length) c0.samp_buf c0.samples FbcLocals.init)).best_fbc := by
    rw [bestFbcIndex_eq, fbcLocals_skip pre (c0 :: rest) 0 FbcLocals.init hpre]
    simp only [fbcLocals, hv]
  rcases fbcLocals_best_of_nonneg rest (0 + pre.length + 1)
      (fbcUpdate (0 + pre.length) c0.samp_buf c0.samples FbcLocals.init)
      (by rw [hbf]; omega) (by omega)
    with ⟨h1, _, h3⟩ | ⟨k, c, hk, h1, _, hm, hlt, hmax, hfirst⟩
  · left
    refine ⟨by rw [hrun, h1, hbf]; simp, ?_⟩
    intro c hc hcm
    have := h3 c hc hcm
    rw [hbn] at this
    exact this
  · right
    rw [hbn] at hlt
    exact ⟨k, c, hk, by rw [hrun, h1]; push_cast; ring, hm, hlt, hmax, hfirst⟩

/-- With no configuration yielding a visual, `best_fbc` keeps its initial
value. -/
theorem bestFbcIndex_of_no_visual (fbc : List FBConfig) (h : ∀ c ∈ fbc, c.vi = none) :
    bestFbcIndex fbc = -1 := by
  have := fbcLocals_skip fbc [] 0 FbcLocals.init h
  rw [bestFbcIndex_eq]
  rw [List.append_nil] at this
  rw [this]
  rfl

/-- With some configuration yielding a visual, `best_fbc` is the index of a
configuration that yields a visual. -/
theorem bestFbcIndex_of_visual (fbc : List FBConfig) (h : ∃ c ∈ fbc, c.vi.isSome = true) :
    0 ≤ bestFbcIndex fbc ∧ bestFbcIndex fbc < fbc.length ∧
      ∃ c, fbc[(bestFbcIndex fbc).toNat]? = some c ∧ c.vi.isSome = true := by
  obtain ⟨c, hc, hv⟩ := h
  cases hf : firstVisual fbc with
  | none =>
    have := (firstVisual_eq_none fbc).mp hf c hc
    rw [this] at hv
    simp at hv
  | some c0 =>
    obtain ⟨pre, rest, rfl, hpre, h0⟩ := firstVisual_eq_some fbc c0 hf
    rcases bestFbcIndex_split pre rest c0 hpre h0 with ⟨hb, _⟩ | ⟨k, d, hk, hb, hm, _⟩
    · rw [hb]
      refine ⟨by omega, by simp, c0, ?_, h0⟩
      rw [Int.toNat_ofNat, List.getElem?_append_right (le_refl _), Nat.sub_self]
      exact List.getElem?_cons_zero
    · rw [hb]
      have hklt : k < rest.length := by
        by_contra hge
        rw [List.getElem?_eq_none (by omega)] at hk
        simp at hk
      refine ⟨by omega, by simp; omega, d, ?_, hm.1⟩
      rw [Int.toNat_ofNat, List.getElem?_append_right (by omega)]
      have : pre.length + 1 + k - pre.length = k + 1 := by omega
      rw [this, List.getElem?_cons_succ]
      exact hk

/-! ## Framebuffer-configuration selection -/

/-- C10: `best_fbc` at the read `fbc[best_fbc]` satisfies
`0 <= best_fbc < fbcount` and indexes a configuration that yielded a visual if
and only if some configuration of the array yields a visual; for an empty array
and for an array in which no configuration yields a visual it is `-1`. -/
theorem bestFbcIndex_bounds (fbc : List FBConfig) :
    ((0 ≤ bestFbcIndex fbc ∧ bestFbcIndex fbc < fbc.length ∧
        ∃ c, fbc[(bestFbcIndex fbc).toNat]? = some c ∧ c.vi.isSome = true) ↔
      ∃ c ∈ fbc, c.vi.isSome = true) ∧
    ((fbc = [] ∨ ∀ c ∈ fbc, c.vi = none) → bestFbcIndex fbc = -1) := by
  refine ⟨⟨?_, bestFbcIndex_of_visual fbc⟩, ?_⟩
  · rintro ⟨h0, _, _⟩
    by_contra hc
    have hall : ∀ c ∈ fbc, c.vi = none := by
      intro c hcm
      cases hcv : c.vi with
      | none => rfl
      | some v => exact absurd ⟨c, hcm, by simp [hcv]⟩ hc
    rw [bestFbcIndex_of_no_visual fbc hall] at h0
    omega
  · rintro (rfl | h)
    · rfl
    · exact bestFbcIndex_of_no_visual fbc h

/-- C2, as stated, fails: with no configuration multisampled and a first
configuration that yields no visual, `best_fbc` is not the first index. -/
theorem bestFbcIndex_first_without_visual :
    [FBConfig.mk none 0 0, FBConfig.mk (some ⟨33, 0, 24⟩) 0 0] ≠ [] ∧
    (∀ c ∈ [FBConfig.mk none 0 0, FBConfig.mk (some ⟨33, 0, 24⟩) 0 0], c.samp_buf = 0) ∧
    bestFbcIndex [FBConfig.mk none 0 0, FBConfig.mk (some ⟨33, 0, 24⟩) 0 0] = 1 ∧
    bestFbcIndex [FBConfig.mk none 0 0, FBConfig.mk (some ⟨33, 0, 24⟩) 0 0] ≠ 0 := by
  decide

/-- C2, amended: when `GLX_SAMPLE_BUFFERS` is 0 for every configuration,
`best_fbc` is the index of the first configuration that yields a visual (the
first of the array when that one yields a visual), and `-1` when none does. -/
theorem bestFbcIndex_no_multisample (fbc : List FBConfig)
    (h : ∀ c ∈ fbc, c.samp_buf = 0) :
    bestFbcIndex fbc = (match firstVisualIdx fbc with
      | some k => (k : Int)
      | none => -1) := by
  cases hf : firstVisualIdx fbc with
  | none =>
    exact bestFbcIndex_of_no_visual fbc ((firstVisualIdx_eq_none fbc).mp hf)
  | some k =>
    obtain ⟨pre, c0, rest, rfl, hlen, hpre, h0⟩ := firstVisualIdx_eq_some fbc k hf
    rcases bestFbcIndex_split pre rest c0 hpre h0 with ⟨hb, _⟩ | ⟨j, d, hj, _, hm, _⟩
    · simp [hb, hlen]
    · exfalso
      have hmem : d ∈ pre ++ c0 :: rest :=
        List.mem_append_right _ (List.mem_cons_of_mem _ (List.getElem?_mem hj))
      exact hm.2 (h d hmem)

/-- An array whose first configuration yields no visual: `best_fbc` is 1. -/
theorem bestFbcIndex_no_multisample_witness :
    bestFbcIndex [FBConfig.mk none 0 0, FBConfig.mk (some ⟨33, 0, 24⟩) 0 0,
      FBConfig.mk (some ⟨34, 0, 24⟩) 0 0] = 1 :=
  bestFbcIndex_no_multisample
    [FBConfig.mk none 0 0, FBConfig.mk (some ⟨33, 0, 24⟩) 0 0, FBConfig.mk (some ⟨34, 0, 24⟩) 0 0]
    (by decide)

/-- C1, as stated, fails: the second configuration is the only one with
multisampling enabled, yet `best_fbc` stays on the first, which has
`GLX_SAMPLE_BUFFERS = 0`. -/
theorem bestFbcIndex_first_not_multisampled :
    (∃ c ∈ [FBConfig.mk (some ⟨33, 0, 24⟩) 0 4, FBConfig.mk (some ⟨34, 0, 24⟩) 1 2],
      c.samp_buf ≠ 0) ∧
    bestFbcIndex [FBConfig.mk (some ⟨33, 0, 24⟩) 0 4, FBConfig.mk (some ⟨34, 0, 24⟩) 1 2] = 0 ∧
    [FBConfig.mk (some ⟨33, 0, 24⟩) 0 4, FBConfig.mk (some ⟨34, 0, 24⟩) 1 2][0]? =
      some (FBConfig.mk (some ⟨33, 0, 24⟩) 0 4) ∧
    (FBConfig.mk (some ⟨33, 0, 24⟩) 0 4).samp_buf = 0 := by
  decide

/-- C1, amended: among the configurations that yield a visual, when at least
one has multisampling enabled and the first either has multisampling enabled
or reports fewer samples than some multisampling-enabled one, `best_fbc` is a
multisampling-enabled configuration whose sample count is the highest among
the multisampling-enabled ones, and the first in array order to attain it. -/
theorem bestFbcIndex_multisample (fbc : List FBConfig)
    (hen : ∃ c ∈ fbc, c.multisampled)
    (hfirst : ∀ c0 ∈ firstVisual fbc,
      c0.samp_buf ≠ 0 ∨ ∃ c ∈ fbc, c.multisampled ∧ c0.samples < c.samples) :
    ∃ (b : Nat) (cb : FBConfig), bestFbcIndex fbc = (b : Int) ∧ fbc[b]? = some cb ∧
      cb.multisampled ∧
      (∀ c ∈ fbc, c.multisampled → c.samples ≤ cb.samples) ∧
      (∀ (j : Nat) (c : FBConfig), j < b → fbc[j]? = some c → c.multisampled →
        c.samples < cb.samples) := by
  obtain ⟨e, he, hem⟩ := hen
  cases hf : firstVisual fbc with
  | none =>
    have := (firstVisual_eq_none fbc).mp hf e he
    have h1 := hem.1
    rw [this] at h1
    simp at h1
  | some c0 =>
    obtain ⟨pre, rest, rfl, hpre, h0⟩ := firstVisual_eq_some fbc c0 hf
    have hprem : ∀ c ∈ pre, ¬ c.multisampled := by
      intro c hc hcm
      have h1 := hcm.1
      rw [hpre c hc] at h1
      simp at h1
    have hbelow : ∀ (j : Nat) (c : FBConfig), j < pre.length →
        (pre ++ c0 :: rest)[j]? = some c → ¬ c.multisampled := by
      intro j c hj hjc
      rw [List.getElem?_append_left hj] at hjc
      exact hprem c (List.getElem?_mem hjc)
    rcases bestFbcIndex_split pre rest c0 hpre h0 with
      ⟨hb, hle⟩ | ⟨k, d, hk, hb, hm, hlt, hmax, hfst⟩
    · have hc0 : c0.samp_buf ≠ 0 := by
        rcases hfirst c0 (by rw [hf]; rfl) with h | ⟨c, hc, hcm, hclt⟩
        · exact h
        · exfalso
          rcases List.mem_append.mp hc with hc | hc
          · exact hprem c hc hcm
          · rcases List.mem_cons.mp hc with rfl | hc
            · omega
            · have := hle c hc hcm
              omega
      refine ⟨pre.length, c0, hb, ?_, ⟨h0, hc0⟩, ?_, ?_⟩
      · rw [List.getElem?_append_right (le_refl _), Nat.sub_self]
        exact List.getElem?_cons_zero
      · intro c hc hcm
        rcases List.mem_append.mp hc with hc | hc
        · exact absurd hcm (hprem c hc)
        · rcases List.mem_cons.mp hc with rfl | hc
          · exact le_refl _
          · exact hle c hc hcm
      · intro j c hj hjc hcm
        exact absurd hcm (hbelow j c hj hjc)
    · refine ⟨pre.length + 1 + k, d, hb, ?_, hm, ?_, ?_⟩
      · rw [List.getElem?_append_right (by omega)]
        have : pre.length + 1 + k - pre.length = k + 1 := by omega
        rw [this, List.getElem?_cons_succ]
        exact hk
      · intro c hc hcm
        rcases List.mem_append.mp hc with hc | hc
        · exact absurd hcm (hprem c hc)
        · rcases List.mem_cons.mp hc with rfl | hc
          · omega
          · exact hmax c hc hcm
      · intro j c hj hjc hcm
        by_cases hjp : j < pre.length
        · exact absurd hcm (hbelow j c hjp hjc)
        · rw [List.getElem?_append_right (by omega)] at hjc
          by_cases hje : j = pre.length
          · subst hje
            rw [Nat.sub_self, List.getElem?_cons_zero] at hjc
            cases hjc
            exact hlt
          · have : j - pre.length = (j - pre.length - 1) + 1 := by omega
            rw [this, List.getElem?_cons_succ] at hjc
            exact hfst (j - pre.length - 1) c (by omega) hjc hcm

/-- An array with a first configuration without a visual, a first visual
without sample buffers and a tie between the last two. -/
theorem bestFbcIndex_multisample_witness :
    ∃ (b : Nat) (cb : FBConfig),
      bestFbcIndex [FBConfig.mk none 1 16, FBConfig.mk (some ⟨33, 0, 24⟩) 0 0,
        FBConfig.mk (some ⟨34, 0, 24⟩) 1 2, FBConfig.mk (some ⟨35, 0, 24⟩) 1 4,
        FBConfig.mk (some ⟨36, 0, 24⟩) 1 4] = (b : Int) ∧
      [FBConfig.mk none 1 16, FBConfig.mk (some ⟨33, 0, 24⟩) 0 0,
        FBConfig.mk (some ⟨34, 0, 24⟩) 1 2, FBConfig.mk (some ⟨35, 0, 24⟩) 1 4,
        FBConfig.mk (some ⟨36, 0, 24⟩) 1 4][b]? = some cb ∧
      cb.multisampled ∧
      (∀ c ∈ [FBConfig.mk none 1 16, FBConfig.mk (some ⟨33, 0, 24⟩) 0 0,
        FBConfig.mk (some ⟨34, 0, 24⟩) 1 2, FBConfig.mk (some ⟨35, 0, 24⟩) 1 4,
        FBConfig.mk (some ⟨36, 0, 24⟩) 1 4], c.multisampled → c.samples ≤ cb.samples) ∧
      (∀ (j : Nat) (c : FBConfig), j < b →
        [FBConfig.mk none 1 16, FBConfig.mk (some ⟨33, 0, 24⟩) 0 0,
        FBConfig.mk (some ⟨34, 0, 24⟩) 1 2, FBConfig.mk (some ⟨35, 0, 24⟩) 1 4,
        FBConfig.mk (some ⟨36, 0, 24⟩) 1 4][j]? = some c → c.multisampled →
        c.samples < cb.samples) :=
  bestFbcIndex_multisample
    [FBConfig.mk none 1 16, FBConfig.mk (some ⟨33, 0, 24⟩) 0 0,
      FBConfig.mk (some ⟨34, 0, 24⟩) 1 2, FBConfig.mk (some ⟨35, 0, 24⟩) 1 4,
      FBConfig.mk (some ⟨36, 0, 24⟩) 1 4]
    ⟨FBConfig.mk (some ⟨34, 0, 24⟩) 1 2, by decide, by decide⟩
    (by
      intro c0 hc0
      right
      exact ⟨FBConfig.mk (some ⟨34, 0, 24⟩) 1 2, by decide, by decide, by
        have : c0 = FBConfig.mk (some ⟨33, 0, 24⟩) 0 0 := by
          simpa [firstVisual] using hc0.symm
        subst this
        decide⟩)

/-! ## Context creation -/

/-- C7: with the `GLX_ARB_create_context` extension and its entry point
available, the version 3.0 request is issued once and the version 1.0 request
is issued exactly when the 3.0 request is rejected; the stage ends in `exit(1)`
if and only if the last request issued is rejected, and otherwise completes; a
rejected 3.0 request followed by an accepted 1.0 request completes with the
fallback context and a cleared error flag. -/
theorem createContext_fallback (n : Native) (w : World) (glxExts : List Char)
    (hext : n.glXQueryExtensionsString = some glxExts)
    (hsup : isExtensionSupported glxExts createContextExtension = true)
    (hproc : n.glXGetProcAddressARB = true) :
    (∃ L, (createContext n w).world.log = w.log ++ L ∧
      L.count (Effect.glXCreateContextAttribsARB 3 0) = 1 ∧
      L.count (Effect.glXCreateContextAttribsARB 1 0) =
        (if (n.glXCreateContextAttribsARB 3 0).rejected then 1 else 0) ∧
      L.count Effect.glXCreateNewContext = 0) ∧
    ((∃ w1, createContext n w = Outcome.exited 1 w1) ↔
      (if (n.glXCreateContextAttribsARB 3 0).rejected then n.glXCreateContextAttribsARB 1 0
        else n.glXCreateContextAttribsARB 3 0).rejected) ∧
    ((∃ w1, createContext n w = Outcome.done () w1) ↔
      ¬ (if (n.glXCreateContextAttribsARB 3 0).rejected then n.glXCreateContextAttribsARB 1 0
        else n.glXCreateContextAttribsARB 3 0).rejected) ∧
    ((n.glXCreateContextAttribsARB 3 0).rejected → ¬ (n.glXCreateContextAttribsARB 1 0).rejected →
      ∃ w1, createContext n w = Outcome.done () w1 ∧
        w1.ctx = (n.glXCreateContextAttribsARB 1 0).ctx ∧ w1.ctxErrorOccurred = false) := by
  rcases h3 : n.glXCreateContextAttribsARB 3 0 with ⟨c3, e3⟩
  rcases h1 : n.glXCreateContextAttribsARB 1 0 with ⟨c1, e1⟩
  by_cases hc3 : c3 = 0 <;> by_cases hc1 : c1 = 0 <;> cases e3 <;> cases e1 <;>
    simp [createContext, hext, hsup, hproc, h3, h1, hc3, hc1, XSync, ctxErrorHandler, World.emit,
      CtxReply.rejected, Outcome.world, List.count_cons, List.count_nil]

/-- On `Native.fallbackServer` the 3.0 request raises an error, the 1.0 request
yields context 7 and the stage completes. -/
theorem createContext_fallback_witness :
    ∃ w1, createContext Native.fallbackServer World.start = Outcome.done () w1 ∧
      w1.ctx = 7 ∧ w1.ctxErrorOccurred = false :=
  (createContext_fallback Native.fallbackServer World.start
    "GLX_ARB_multisample GLX_ARB_create_context".toList rfl (by decide) rfl).2.2.2
    (by decide) (by decide)

/-! ## Fail-fast contract of `CreateX11Window` -/

theorem fbcLoop_best (fbc : List FBConfig) (log : List Effect) :
    (fbcLoop fbc 0 (FbcLocals.init, log)).1.best_fbc = bestFbcIndex fbc := by
  rw [fbcLoop_fst, bestFbcIndex_eq]

theorem createContext_done (n : Native) (w w1 : World) (u : Unit)
    (h : createContext n w = Outcome.done u w1) :
    w1.ctx ≠ 0 ∧ w1.ctxErrorOccurred = false ∧ w1.display = w.display ∧ w1.win = w.win ∧
      w1.cmap = w.cmap ∧
      ∃ glxExts, n.glXQueryExtensionsString = some glxExts ∧
        ¬ (n.lastContextReply glxExts).rejected := by
  cases hext : n.glXQueryExtensionsString with
  | none => simp [createContext, hext] at h
  | some glxExts =>
    rcases h0 : n.glXCreateNewContext with ⟨c0, e0⟩
    rcases h3 : n.glXCreateContextAttribsARB 3 0 with ⟨c3, e3⟩
    rcases h1 : n.glXCreateContextAttribsARB 1 0 with ⟨c1, e1⟩
    by_cases hcond : isExtensionSupported glxExts createContextExtension = false ∨
        n.glXGetProcAddressARB = false
    · by_cases hc0 : c0 = 0 <;> cases e0 <;>
        simp [createContext, hext, hcond, h0, hc0, XSync, ctxErrorHandler, World.emit,
          CtxReply.rejected, Native.lastContextReply] at h ⊢
      obtain rfl := h
      simp [hc0]
    · by_cases hc3 : c3 = 0 <;> by_cases hc1 : c1 = 0 <;> cases e3 <;> cases e1 <;>
        simp [createContext, hext, hcond, h3, h1, hc3, hc1, XSync, ctxErrorHandler, World.emit,
          CtxReply.rejected, Native.lastContextReply] at h ⊢ <;>
        (obtain rfl := h; simp [hc3, hc1])

theorem createContext_rejected (n : Native) (w : World) (glxExts : List Char)
    (hx : n.glXQueryExtensionsString = some glxExts)
    (hrej : (n.lastContextReply glxExts).rejected) :
    ∃ w1, createContext n w = Outcome.exited 1 w1 := by
  rcases q0 : n.glXCreateNewContext with ⟨c0, e0⟩
  rcases q3 : n.glXCreateContextAttribsARB 3 0 with ⟨c3, e3⟩
  rcases q1 : n.glXCreateContextAttribsARB 1 0 with ⟨c1, e1⟩
  by_cases hcond : isExtensionSupported glxExts createContextExtension = false ∨
      n.glXGetProcAddressARB = false
  · by_cases hc0 : c0 = 0 <;> cases e0 <;>
      simp [createContext, hx, hcond, q0, hc0, XSync, ctxErrorHandler, World.emit,
        CtxReply.rejected, Native.lastContextReply] at hrej ⊢
  · by_cases hc3 : c3 = 0 <;> by_cases hc1 : c1 = 0 <;> cases e3 <;> cases e1 <;>
      simp [createContext, hx, hcond, q3, q1, hc3, hc1, XSync, ctxErrorHandler, World.emit,
        CtxReply.rejected, Native.lastContextReply] at hrej ⊢

/-- The ways in which `CreateX11Window` can end. -/
theorem CreateX11Window_cases (n : Native) (width height : Int) (w : World) :
    (n.XOpenDisplay = 0 ∧ ∃ w1, CreateX11Window n width height w = Outcome.exited 1 w1) ∨
    (n.XOpenDisplay ≠ 0 ∧ ∃ w1, CreateX11Window n width height w = Outcome.exited 1 w1) ∨
    (n.XOpenDisplay ≠ 0 ∧ ∃ fbc, n.glXChooseFBConfig = some fbc ∧
      ((∀ c ∈ fbc, c.vi = none) ∧ ∃ w1, CreateX11Window n width height w = Outcome.undefined w1)) ∨
    (n.XOpenDisplay ≠ 0 ∧ ∃ fbc, n.glXChooseFBConfig = some fbc ∧
      (∃ c ∈ fbc, c.vi.isSome = true) ∧
      ∃ w11 : World, w11.display = n.XOpenDisplay ∧ w11.win = n.XCreateWindow ∧
        w11.win ≠ 0 ∧
        ((∃ s w1, createContext n w11 = Outcome.exited s w1 ∧
            CreateX11Window n width height w = Outcome.exited s w1) ∨
          (∃ w1, createContext n w11 = Outcome.undefined w1 ∧
            CreateX11Window n width height w = Outcome.undefined w1) ∨
          (∃ u w12 w15, createContext n w11 = Outcome.done u w12 ∧
            CreateX11Window n width height w = Outcome.done 0 w15 ∧
            w15.display = w12.display ∧ w15.win = w12.win ∧ w15.ctx = w12.ctx ∧
            w15.ctxErrorOccurred = w12.ctxErrorOccurred))) := by
  by_cases hd : n.XOpenDisplay = 0
  · left
    refine ⟨hd, ?_⟩
    simp only [CreateX11Window, hd, if_true]
    exact ⟨_, rfl⟩
  · right
    by_cases hver : n.glXQueryVersion = false ∨ (n.glx_major = 1 ∧ n.glx_minor < 3) ∨ n.glx_major < 1
    · left
      refine ⟨hd, ?_⟩
      simp only [CreateX11Window, hd, hver, if_true, if_false]
      exact ⟨_, rfl⟩
    · cases hfbc : n.glXChooseFBConfig with
      | none =>
        left
        refine ⟨hd, ?_⟩
        simp only [CreateX11Window, hd, hver, hfbc, if_true, if_false]
        exact ⟨_, rfl⟩
      | some fbc =>
        by_cases hvis : ∃ c ∈ fbc, c.vi.isSome = true
        · obtain ⟨hb0, hblt, cb, hcb, hcbv⟩ := bestFbcIndex_of_visual fbc hvis
          obtain ⟨v, hv⟩ := Option.isSome_iff_exists.mp hcbv
          by_cases hwin : n.XCreateWindow = 0
          · left
            refine ⟨hd, ?_⟩
            simp only [CreateX11Window, hd, hver, hfbc, if_true, if_false, fbcLoop_best,
              not_lt.mpr hb0, hcb, hv, hwin]
            exact ⟨_, rfl⟩
          · right; right
            refine ⟨hd, fbc, rfl, hvis, ?_⟩
            simp only [CreateX11Window, hd, hver, hfbc, if_true, if_false, fbcLoop_best,
              not_lt.mpr hb0, hcb, hv, hwin]
            generalize hW : World.emit _ Effect.glXGetProcAddressARB = w11
            have hdisp : w11.display = n.XOpenDisplay := by
              rw [← hW]
              rfl
            have hw : w11.win = n.XCreateWindow := by
              rw [← hW]
              rfl
            refine ⟨w11, hdisp, hw, by rw [hw]; exact hwin, ?_⟩
            cases hcc : createContext n w11 with
            | exited s w1 => left; exact ⟨s, w1, rfl, rfl⟩
            | undefined w1 => right; left; exact ⟨w1, rfl, rfl⟩
            | done u w12 => right; right; exact ⟨u, w12, _, rfl, rfl, rfl, rfl, rfl, rfl⟩
        · right; left
          have hall : ∀ c ∈ fbc, c.vi = none := by
            intro c hc
            cases hcv : c.vi with
            | none => rfl
            | some v => exact absurd ⟨c, hc, by simp [hcv]⟩ hvis
          refine ⟨hd, fbc, rfl, hall, ?_⟩
          have hb : bestFbcIndex fbc = -1 := bestFbcIndex_of_no_visual fbc hall
          simp only [CreateX11Window, hd, hver, hfbc, if_true, if_false, fbcLoop_best, hb]
          exact ⟨_, rfl⟩

/-- What `CreateX11Window` does guarantee: `exit(1)` when the display cannot be
opened and when `glXChooseFBConfig` returns no array; no return when window
creation fails or when the last context request issued is rejected, and
`exit(1)` in these two cases as soon as the array holds a configuration with a
visual; whenever it returns, it returns 0 with `display`, `win` and `ctx`
non-null, `best_fbc` indexing a configuration of the array that yields a
visual, and no context error flagged. -/
theorem CreateX11Window_fail_fast (n : Native) (width height : Int) (w : World) :
    (n.XOpenDisplay = 0 → ∃ w1, CreateX11Window n width height w = Outcome.exited 1 w1) ∧
    (n.glXChooseFBConfig = none → ∃ w1, CreateX11Window n width height w = Outcome.exited 1 w1) ∧
    (n.XCreateWindow = 0 → ∀ v w1, CreateX11Window n width height w ≠ Outcome.done v w1) ∧
    (∀ glxExts, n.glXQueryExtensionsString = some glxExts →
      (n.lastContextReply glxExts).rejected →
      ∀ v w1, CreateX11Window n width height w ≠ Outcome.done v w1) ∧
    ((∀ fbc, n.glXChooseFBConfig = some fbc → ∃ c ∈ fbc, c.vi.isSome = true) →
      (n.XCreateWindow = 0 ∨
        ∃ glxExts, n.glXQueryExtensionsString = some glxExts ∧
          (n.lastContextReply glxExts).rejected) →
      ∃ w1, CreateX11Window n width height w = Outcome.exited 1 w1) ∧
    (∀ v w1, CreateX11Window n width height w = Outcome.done v w1 →
      v = 0 ∧ w1.display = n.XOpenDisplay ∧ w1.display ≠ 0 ∧
      (∃ fbc c, n.glXChooseFBConfig = some fbc ∧ 0 ≤ bestFbcIndex fbc ∧
        bestFbcIndex fbc < fbc.length ∧
        fbc[(bestFbcIndex fbc).toNat]? = some c ∧ c.vi.isSome = true) ∧
      w1.win = n.XCreateWindow ∧ w1.win ≠ 0 ∧ w1.ctx ≠ 0 ∧ w1.ctxErrorOccurred = false) := by
  have hdone : ∀ v w1, CreateX11Window n width height w = Outcome.done v w1 →
      v = 0 ∧ w1.display = n.XOpenDisplay ∧ w1.display ≠ 0 ∧
      (∃ fbc c, n.glXChooseFBConfig = some fbc ∧ 0 ≤ bestFbcIndex fbc ∧
        bestFbcIndex fbc < fbc.length ∧
        fbc[(bestFbcIndex fbc).toNat]? = some c ∧ c.vi.isSome = true) ∧
      w1.win = n.XCreateWindow ∧ w1.win ≠ 0 ∧ w1.ctx ≠ 0 ∧ w1.ctxErrorOccurred = false ∧
      ∃ glxExts, n.glXQueryExtensionsString = some glxExts ∧
        ¬ (n.lastContextReply glxExts).rejected := by
    intro v w1 hr
    rcases CreateX11Window_cases n width height w with
      ⟨_, w2, h2⟩ | ⟨_, w2, h2⟩ | ⟨_, fbc, _, _, w2, h2⟩ |
      ⟨hd, fbc, hfbc, hvis, w11, hdisp, hwin, hwin0, hctx⟩
    · rw [h2] at hr; cases hr
    · rw [h2] at hr; cases hr
    · rw [h2] at hr; cases hr
    · rcases hctx with ⟨s, w2, _, h2⟩ | ⟨w2, _, h2⟩ | ⟨u, w12, w15, hcc, h2, e1, e2, e3, e4⟩
      · rw [h2] at hr; cases hr
      · rw [h2] at hr; cases hr
      · rw [h2] at hr
        cases hr
        obtain ⟨c1, c2, c3, c4, _, c7⟩ := createContext_done n w11 w12 u hcc
        obtain ⟨hb0, hblt, cb, hcb, hcbv⟩ := bestFbcIndex_of_visual fbc hvis
        refine ⟨rfl, by rw [e1, c3, hdisp], by rw [e1, c3, hdisp]; exact hd,
          ⟨fbc, cb, hfbc, hb0, hblt, hcb, hcbv⟩, by rw [e2, c4, hwin],
          by rw [e2, c4]; exact hwin0, by rw [e3]; exact c1, by rw [e4]; exact c2, c7⟩
  refine ⟨?_, ?_, ?_, ?_, ?_, ?_⟩
  · intro h0
    rcases CreateX11Window_cases n width height w with
      ⟨_, h2⟩ | ⟨hd, _⟩ | ⟨hd, _⟩ | ⟨hd, _⟩
    · exact h2
    all_goals exact absurd h0 hd
  · intro h0
    rcases CreateX11Window_cases n width height w with
      ⟨_, h2⟩ | ⟨_, h2⟩ | ⟨_, fbc, hfbc, _⟩ | ⟨_, fbc, hfbc, _⟩
    · exact h2
    · exact h2
    all_goals (rw [h0] at hfbc; cases hfbc)
  · intro h0 v w1 hr
    obtain ⟨_, _, _, _, h5, h6, _⟩ := hdone v w1 hr
    exact h6 (by rw [h5]; exact h0)
  · intro glxExts hx hrej v w1 hr
    obtain ⟨e, he, hne⟩ := (hdone v w1 hr).2.2.2.2.2.2.2.2
    rw [hx] at he
    cases he
    exact hne hrej
  · intro husable hfail
    rcases CreateX11Window_cases n width height w with
      ⟨_, h2⟩ | ⟨_, h2⟩ | ⟨_, fbc, hfbc, hall, _⟩ |
      ⟨hd, fbc, hfbc, hvis, w11, hdisp, hwin, hwin0, hctx⟩
    · exact h2
    · exact h2
    · exfalso
      obtain ⟨c, hc, hcv⟩ := husable fbc hfbc
      rw [hall c hc] at hcv
      simp at hcv
    · rcases hfail with h0 | ⟨glxExts, hx, hrej⟩
      · exact absurd (by rw [hwin]; exact h0) hwin0
      · obtain ⟨w2, h2⟩ := createContext_rejected n w11 glxExts hx hrej
        rcases hctx with ⟨s, w3, hcc, h3⟩ | ⟨w3, hcc, _⟩ | ⟨u, w12, w15, hcc, _⟩
        · rw [h2] at hcc
          cases hcc
          exact ⟨_, h3⟩
        · rw [h2] at hcc; cases hcc
        · rw [h2] at hcc; cases hcc
  · intro v w1 hr
    obtain ⟨a1, a2, a3, a4, a5, a6, a7, a8, _⟩ := hdone v w1 hr
    exact ⟨a1, a2, a3, a4, a5, a6, a7, a8⟩

/-- C6: with an array of length 0 from `glXChooseFBConfig`, and with an array
in which no configuration yields a visual, `CreateX11Window` does not call
`exit`: after the loop it reads `fbc[best_fbc]` with `best_fbc = -1`, although
no configuration can be chosen and `XCreateWindow` would fail. -/
theorem CreateX11Window_reads_before_array :
    Native.emptyArrayServer.glXChooseFBConfig = some [] ∧
    Native.emptyArrayServer.XCreateWindow = 0 ∧
    bestFbcIndex [] = -1 ∧
    CreateX11Window Native.emptyArrayServer 640 480 World.start =
      Outcome.undefined
        { World.start with
          display := 1
          log :=
            [Effect.XOpenDisplay, Effect.glXQueryVersion,
             Effect.printf "Getting matching framebuffer configs\n" [],
             Effect.glXChooseFBConfig,
             Effect.printf "Found %d matching FB configs.\n" [0],
             Effect.printf "Getting XVisualInfos\n" []] } ∧
    Native.noVisualServer.glXChooseFBConfig = some [FBConfig.mk none 1 4] ∧
    bestFbcIndex [FBConfig.mk none 1 4] = -1 ∧
    CreateX11Window Native.noVisualServer 640 480 World.start =
      Outcome.undefined
        { World.start with
          display := 1
          log :=
            [Effect.XOpenDisplay, Effect.glXQueryVersion,
             Effect.printf "Getting matching framebuffer configs\n" [],
             Effect.glXChooseFBConfig,
             Effect.printf "Found %d matching FB configs.\n" [1],
             Effect.printf "Getting XVisualInfos\n" [],
             Effect.glXGetVisualFromFBConfig 0, Effect.XFreeVisual] } :=
  ⟨rfl, rfl, rfl, rfl, rfl, rfl, rfl⟩

/-- A run of `CreateX11Window` that returns: the server of
`Native.fallbackServer` yields the second configuration, window 6 and the
fallback context 7. -/
theorem CreateX11Window_fallbackServer :
    ∃ w1, CreateX11Window Native.fallbackServer 640 480 World.start = Outcome.done 0 w1 ∧
      w1.display = 1 ∧ w1.win = 6 ∧ w1.ctx = 7 ∧ w1.cmap = 5 ∧ w1.ctxErrorOccurred = false :=
  ⟨_, rfl, rfl, rfl, rfl, rfl, rfl⟩

/-! ## Extension-string test -/

theorem strstr_bound (s needle : List Char) (rel : Nat) (h : strstr s needle = some rel) :
    rel + needle.length ≤ s.length := by
  induction s generalizing rel with
  | nil =>
    cases needle with
    | nil => simp [strstr] at h; simp [h]
    | cons a as => simp [strstr] at h
  | cons x xs ih =>
    by_cases hp : needle.isPrefixOf (x :: xs) = true
    · simp only [strstr, hp, if_true, Option.some.injEq] at h
      subst h
      have := (List.isPrefixOf_iff_prefix.mp hp).length_le
      simpa using this
    · simp only [strstr, hp, Bool.false_eq_true, if_false, Option.map_eq_some'] at h
      obtain ⟨r, hr, rfl⟩ := h
      have := ih r hr
      simp only [List.length_cons]
      omega

/-- The loop of `isExtensionSupported` ends within `extList.length + 1`
iterations when `extension` is not empty. -/
theorem isExtensionSupportedLoop_isSome (extList extension : List Char) (hne : extension ≠ [])
    (fuel start : Nat) (hstart : start ≤ extList.length) (hfuel : extList.length - start < fuel) :
    (isExtensionSupportedLoop extList extension fuel start).isSome = true := by
  induction fuel generalizing start with
  | zero => omega
  | succ fuel ih =>
    have hlen : 0 < extension.length := List.length_pos.mpr hne
    cases hs : strstr (extList.drop start) extension with
    | none => simp [isExtensionSupportedLoop, hs]
    | some rel =>
      have hb := strstr_bound _ _ _ hs
      rw [List.length_drop] at hb
      simp only [isExtensionSupportedLoop, hs]
      split_ifs
      · rfl
      · exact ih (start + rel + extension.length) (by omega) (by omega)

/-- Past the guard of line 66 the loop ends within its bound, with the value
that `isExtensionSupported` returns. -/
theorem isExtensionSupported_loop_eq (extList extension : List Char)
    (h : ¬ ((strchr extension ' ').isSome = true ∨ cstrAt extension 0 = '\x00')) :
    isExtensionSupportedLoop extList extension (extList.length + 1) 0 =
      some (isExtensionSupported extList extension) := by
  have hne : extension ≠ [] := by
    rintro rfl
    exact h (Or.inr rfl)
  have hsome := isExtensionSupportedLoop_isSome extList extension hne (extList.length + 1) 0
    (Nat.zero_le _) (by omega)
  obtain ⟨b, hb⟩ := Option.isSome_iff_exists.mp hsome
  simp only [isExtensionSupported, h, if_false, hb, Option.getD_some]

/-- C8: for the extension string `aa`, whose only name is `aa`, and the
well-formed name `a`, `isExtensionSupported` returns `true`: an occurrence that
starts where a rejected occurrence ended is accepted inside a longer name. -/
theorem isExtensionSupported_accepts_substring :
    isExtensionSupported ['a', 'a'] ['a'] = true ∧
    extensionNames ['a', 'a'] = [['a', 'a']] ∧
    ['a'] ∉ extensionNames ['a', 'a'] ∧
    ['a'] ≠ [] ∧ ' ' ∉ ['a'] := by
  decide

/-- The same acceptance at the call site of line 236: an extension string
whose only name is `GLX_ARB_create_context` written twice without a space. -/
theorem isExtensionSupported_call_site :
    isExtensionSupported "GLX_ARB_create_contextGLX_ARB_create_context".toList
      createContextExtension = true ∧
    createContextExtension ∉
      extensionNames "GLX_ARB_create_contextGLX_ARB_create_context".toList := by
  decide

/-! ## Teardown, fullscreen toggle and resize handling -/

/-- C4: every call of `Terminate` appends to the log exactly the unbinding of
the context, `glXDestroyContext`, `XDestroyWindow`, `XFreeColormap` and
`XCloseDisplay`, in this order, on the handles held by the globals. -/
theorem Terminate_release_order (w : World) :
    (Terminate w).log = w.log ++
      [Effect.glXMakeCurrent 0 0, Effect.glXDestroyContext w.ctx, Effect.XDestroyWindow w.win,
       Effect.XFreeColormap w.cmap, Effect.XCloseDisplay w.display] := by
  simp [Terminate, World.emit]

/-- C5: after `SetFullscreen b` the flag equals `b`; with `b` equal to the
current flag nothing is invoked and the state is unchanged; with `b` different
exactly one of `StartFullScreen` (for `true`) and `StopFullScreen` (for
`false`) is invoked, followed by the store of the flag. -/
theorem SetFullscreen_edge (b : Bool) (w : World) :
    (SetFullscreen b w).context.is_fullscreen = b ∧
    (b = w.context.is_fullscreen → SetFullscreen b w = w) ∧
    (b ≠ w.context.is_fullscreen →
      (SetFullscreen b w).log = w.log ++
        [if b = true then Effect.StartFullScreen else Effect.StopFullScreen,
         Effect.storeIsFullscreen b]) := by
  refine ⟨?_, ?_, ?_⟩
  · by_cases h : b = w.context.is_fullscreen
    · simp [SetFullscreen, h]
    · simp [SetFullscreen, h]
  · intro h
    simp [SetFullscreen, h]
  · intro h
    cases b <;> simp [SetFullscreen, h, StartFullScreen, StopFullScreen, World.emit]

/-- A run of notifications carrying the size that is already cached only
polls: one `XCheckWindowEvent` per event, the final one that finds the queue
empty, and the `fflush`. -/
theorem ProcessX11Events_cached_run (n : Nat) (width height : Int) (w : World)
    (h : w.context.windowed_size = (width, height)) :
    ProcessX11Events (List.replicate n (XEvent.ConfigureNotify width height)) w =
      { w with
        log := w.log ++ (List.replicate (n + 1) (Effect.XCheckWindowEvent w.display w.win) ++
          [Effect.fflush]) } := by
  induction n generalizing w with
  | zero => simp [ProcessX11Events, World.emit]
  | succ n ih =>
    have hstep : handleEvent (XEvent.ConfigureNotify width height)
        (w.emit (Effect.XCheckWindowEvent w.display w.win))
        = w.emit (Effect.XCheckWindowEvent w.display w.win) := by
      simp [handleEvent, World.emit, h]
    rw [List.replicate_succ, ProcessX11Events, hstep,
      ih (w.emit (Effect.XCheckWindowEvent w.display w.win)) (by simpa [World.emit] using h)]
    simp [World.emit, List.replicate_succ]

/-- C3: `ProcessX11Events` on a pending `ConfigureNotify` carrying
`(width, height)`.  When the cached `windowed_size` already has this value the
event only costs its poll: nothing is stored and nothing is printed.  Otherwise
both components are stored once, exactly one "Size changed to" line is printed
and the cached size is `(width, height)`.  A run of `n + 1` notifications with
the same size ends with the cached size `(width, height)` and, beyond the
polls and the `fflush`, adds nothing to the log in the first case and the two
stores and the single line in the second. -/
theorem ProcessX11Events_ConfigureNotify (w : World) (width height : Int) :
    (w.context.windowed_size = (width, height) →
      (∀ pending : List XEvent,
        ProcessX11Events (XEvent.ConfigureNotify width height :: pending) w =
          ProcessX11Events pending (w.emit (Effect.XCheckWindowEvent w.display w.win))) ∧
      (∀ n : Nat,
        ProcessX11Events (List.replicate (n + 1) (XEvent.ConfigureNotify width height)) w =
          { w with
            log := w.log ++
              (List.replicate (n + 2) (Effect.XCheckWindowEvent w.display w.win) ++
                [Effect.fflush]) })) ∧
    (w.context.windowed_size ≠ (width, height) →
      (∀ pending : List XEvent,
        ProcessX11Events (XEvent.ConfigureNotify width height :: pending) w =
          ProcessX11Events pending
            { w with
              context := { w.context with windowed_size := (width, height) }
              log := w.log ++
                [Effect.XCheckWindowEvent w.display w.win,
                 Effect.storeWindowedSize 0 width, Effect.storeWindowedSize 1 height,
                 Effect.printf "Size changed to: %d by %d\n" [width, height]] }) ∧
      (∀ n : Nat,
        ProcessX11Events (List.replicate (n + 1) (XEvent.ConfigureNotify width height)) w =
          { w with
            context := { w.context with windowed_size := (width, height) }
            log := w.log ++
              ([Effect.XCheckWindowEvent w.display w.win,
                Effect.storeWindowedSize 0 width, Effect.storeWindowedSize 1 height,
                Effect.printf "Size changed to: %d by %d\n" [width, height]] ++
               (List.replicate (n + 1) (Effect.XCheckWindowEvent w.display w.win) ++
                [Effect.fflush])) })) := by
  have hne : w.context.windowed_size ≠ (width, height) ↔
      (w.context.windowed_size.1 ≠ width ∨ w.context.windowed_size.2 ≠ height) := by
    rw [Ne, Prod.ext_iff]
    simp only [not_and_or]
  refine ⟨fun h => ⟨?_, ?_⟩, fun h => ?_⟩
  · intro pending
    rw [ProcessX11Events]
    congr 1
    simp [handleEvent, World.emit, h]
  · intro n
    exact ProcessX11Events_cached_run (n + 1) width height w h
  · have hstep : handleEvent (XEvent.ConfigureNotify width height)
        (w.emit (Effect.XCheckWindowEvent w.display w.win)) =
        { w with
          context := { w.context with windowed_size := (width, height) }
          log := w.log ++
            [Effect.XCheckWindowEvent w.display w.win,
             Effect.storeWindowedSize 0 width, Effect.storeWindowedSize 1 height,
             Effect.printf "Size changed to: %d by %d\n" [width, height]] } := by
      simp [handleEvent, World.emit, hne.mp h]
    refine ⟨?_, ?_⟩
    · intro pending
      rw [ProcessX11Events, hstep]
    · intro n
      rw [List.replicate_succ, ProcessX11Events, hstep, ProcessX11Events_cached_run n width height _ rfl]
      simp

/-- C9: with a single pending `ButtonPress`, `ProcessX11Events` tears the
session down and then calls `XCheckWindowEvent` once more on the display it has
just closed. -/
theorem ProcessX11Events_polls_after_close (w : World) :
    (ProcessX11Events [XEvent.ButtonPress] w).log = w.log ++
      [Effect.XCheckWindowEvent w.display w.win,
       Effect.glXMakeCurrent 0 0, Effect.glXDestroyContext w.ctx, Effect.XDestroyWindow w.win,
       Effect.XFreeColormap w.cmap, Effect.XCloseDisplay w.display,
       Effect.Quit,
       Effect.XCheckWindowEvent w.display w.win,
       Effect.fflush] := by
  simp [ProcessX11Events, handleEvent, Quit, Terminate, World.emit]

end Pangolin
